import Mathlib

/-!
Shallow embedding of `src/dashboard.py`, a pandas/streamlit sales dashboard.

The script has two stages:
* `load_data`: reads `sales_data.csv` (returning `None` when the file is
  missing), renames columns, parses dates, derives `Cost`, `Profit`,
  `City_Name`, `Region`, `Category`, and drops exact duplicate rows;
* `main`: filters the rows by the selected Region / Category sets, shows
  integer-truncated metric totals and several chart aggregations
  (among them the top-5 products by summed revenue).

Rows are modelled as structures, dataframes as lists of rows, decimal
amounts as `ℚ` (exact arithmetic), and pandas/python library behaviour
that the script relies on (`str.split`, `str.strip`, substring `in`,
`drop_duplicates`, `groupby(...).sum()`, `nlargest`, `int(...)`) is
re-implemented on lists in executable form.  `pd.to_datetime` is an
external parser and is abstracted as a parameter
`parseDate : String → Option Nat`; an exception it would raise is the
`none` case.
-/

namespace Dashboard

/-- Python's substring test `pat in s` (case sensitive): some suffix
`s.data.drop i` of the character list has `pat.data` as a prefix.
The empty pattern is contained in every string, as in Python. -/
def strContains (s pat : String) : Bool :=
  (List.range (s.data.length + 1)).any (fun i => pat.data.isPrefixOf (s.data.drop i))

/-- `any(p in product for p in keywords)` from the script. -/
def containsAny (s : String) (keywords : List String) : Bool :=
  keywords.any (fun p => strContains s p)

/-- `get_category` from `dashboard.py` (lines 58-67): ordered keyword
rules over the product name, first match wins. -/
def get_category (product : String) : String :=
  if containsAny product ["Laptop", "Monitor", "PC"] then "Electronics"
  else if containsAny product ["iPhone", "Phone"] then "Mobile"
  else if containsAny product ["Cable", "Headphones", "Wired", "Charger", "Machine"] then
    "Accessories"
  else "Other"

/-- `get_region` from `dashboard.py` (lines 44-54): exact membership
tests on the city name, defaulting to `"Central"`. -/
def get_region (city : String) : String :=
  if city ∈ ["New York City", "Boston"] then "East"
  else if city ∈ ["San Francisco", "Los Angeles"] then "West"
  else if city ∈ ["Dallas", "Atlanta"] then "South"
  else if city ∈ ["Seattle", "Portland"] then "North"
  else "Central"

/-- Python's `str.split(c)` on a single separator character, on
character lists: always returns at least one piece. -/
def splitOnChar (c : Char) : List Char → List (List Char)
  | [] => [[]]
  | a :: as =>
    let rest := splitOnChar c as
    if a = c then [] :: rest
    else
      match rest with
      | [] => [[a]]
      | t :: ts => (a :: t) :: ts

/-- Python's `str.strip()`: drop leading and trailing whitespace. -/
def pyStrip (l : List Char) : List Char :=
  ((l.dropWhile Char.isWhitespace).reverse.dropWhile Char.isWhitespace).reverse

/-- The city extraction `x.split(',')[1].strip()` (line 41).  `none`
models the `IndexError` raised when the address has no second
comma-separated token. -/
def extractCityName (addr : String) : Option String :=
  ((splitOnChar ',' addr.data).get? 1).map (fun t => String.mk (pyStrip t))

/-- Python's `int(x)` on an exact rational: truncation toward zero. -/
def py_int (q : ℚ) : Int := Int.tdiv q.num q.den

/-- A raw csv row after header normalisation and renaming (lines 16-29):
columns `Date` (still a string), `Product`, `Units_Sold`, `Unit_Price`,
`Revenue`, `Purchase_Address`. -/
structure RawRow where
  order_date : String
  product : String
  units_sold : Int
  unit_price : ℚ
  revenue : ℚ
  purchase_address : String
deriving DecidableEq, Repr

/-- A cleaned transaction record with all derived columns. -/
structure Row where
  date : Nat
  product : String
  units_sold : Int
  unit_price : ℚ
  revenue : ℚ
  purchase_address : String
  cost : ℚ
  profit : ℚ
  city_name : String
  region : String
  category : String
deriving DecidableEq, Repr

/-- Errors that escape `load_data` uncaught (only `FileNotFoundError`
is caught there). -/
inductive RowError where
  | dateParse (s : String)
  | addressIndex (s : String)
deriving DecidableEq, Repr

/-- `pd.to_datetime(df['Date'])` (line 33): the whole column is
converted; the first unparseable value aborts the load with an
uncaught exception. -/
def parseDates (parseDate : String → Option Nat) :
    List RawRow → Except RowError (List (RawRow × Nat))
  | [] => .ok []
  | r :: rs =>
    match parseDate r.order_date with
    | none => .error (.dateParse r.order_date)
    | some d =>
      match parseDates parseDate rs with
      | .error e => .error e
      | .ok rest => .ok ((r, d) :: rest)

/-- `df['Purchase_Address'].apply(lambda x: x.split(',')[1].strip())`
(line 41): the first address without a second token aborts the load. -/
def extractCities :
    List (RawRow × Nat) → Except RowError (List (RawRow × Nat × String))
  | [] => .ok []
  | rd :: rest =>
    match extractCityName rd.1.purchase_address with
    | none => .error (.addressIndex rd.1.purchase_address)
    | some c =>
      match extractCities rest with
      | .error e => .error e
      | .ok tl => .ok ((rd.1, rd.2, c) :: tl)

/-- Column derivations of lines 37-67: `Cost = Revenue * 0.70`,
`Profit = Revenue - Cost`, `Region = get_region(City_Name)`,
`Category = get_category(Product)`. -/
def mkRow (r : RawRow) (d : Nat) (city : String) : Row :=
  { date := d
    product := r.product
    units_sold := r.units_sold
    unit_price := r.unit_price
    revenue := r.revenue
    purchase_address := r.purchase_address
    cost := r.revenue * (7 / 10)
    profit := r.revenue - r.revenue * (7 / 10)
    city_name := city
    region := get_region city
    category := get_category r.product }

/-- `df.drop_duplicates()` (line 70), keeping the first occurrence of
each row value; `seen` accumulates the rows already emitted. -/
def dropDupAux {α : Type} [DecidableEq α] : List α → List α → List α
  | [], _ => []
  | r :: rs, seen => if r ∈ seen then dropDupAux rs seen else r :: dropDupAux rs (r :: seen)

/-- `df.drop_duplicates()` on a whole dataframe. -/
def drop_duplicates {α : Type} [DecidableEq α] (l : List α) : List α :=
  dropDupAux l []

/-- The cleaning part of `load_data` (lines 31-70), once the csv has
been read: parse all dates, extract all cities, derive the remaining
columns, drop exact duplicates. -/
def load_clean (parseDate : String → Option Nat) (raws : List RawRow) :
    Except RowError (List Row) :=
  match parseDates parseDate raws with
  | .error e => .error e
  | .ok dated =>
    match extractCities dated with
    | .error e => .error e
    | .ok withCity =>
      .ok (drop_duplicates (withCity.map (fun x => mkRow x.1 x.2.1 x.2.2)))

/-- What the csv read can see: whether `sales_data.csv` exists, and the
(already header-normalised) rows it holds. -/
structure FileSource where
  present : Bool
  rows : List RawRow
deriving Repr

/-- The three possible outcomes of `load_data` (lines 5-72): the file
was missing and `None` was returned after `st.error`; an exception
escaped uncaught; or a cleaned dataframe was returned. -/
inductive LoadOutcome where
  | missingFile
  | raised (e : RowError)
  | loaded (rows : List Row)
deriving DecidableEq, Repr

/-- `load_data` (lines 5-72): only `FileNotFoundError` is caught and
turned into the `None` signal; every other error propagates. -/
def load_data (parseDate : String → Option Nat) (src : FileSource) : LoadOutcome :=
  if src.present = false then .missingFile
  else
    match load_clean parseDate src.rows with
    | .error e => .raised e
    | .ok rows => .loaded rows

/-- The filter of line 97:
`df[df["Region"].isin(selected_region) & df["Category"].isin(selected_category)]`. -/
def filterRows (rows : List Row) (selRegions selCats : List String) : List Row :=
  rows.filter (fun r => decide (r.region ∈ selRegions) && decide (r.category ∈ selCats))

/-- Stable insertion into a list sorted by the boolean relation `le`
(stands in for pandas' stable sorts). -/
def insertLe {α : Type} (le : α → α → Bool) (a : α) : List α → List α
  | [] => [a]
  | b :: bs => if le a b then a :: b :: bs else b :: insertLe le a bs

/-- Stable insertion sort by the boolean relation `le`. -/
def sortLe {α : Type} (le : α → α → Bool) : List α → List α
  | [] => []
  | a :: as => insertLe le a (sortLe le as)

/-- Lexicographic order on character lists, as pandas sorts string
group keys. -/
def charListLe : List Char → List Char → Bool
  | [], _ => true
  | _ :: _, [] => false
  | a :: as, b :: bs => if a = b then charListLe as bs else decide (a < b)

/-- `df_filtered.groupby('Product')['Revenue'].sum()` (line 140):
distinct product keys sorted ascending, each paired with the sum of
`Revenue` over its rows. -/
def groupby_product_sum (l : List Row) : List (String × ℚ) :=
  (sortLe (fun a b => charListLe a.data b.data) (l.map Row.product).eraseDups).map
    (fun p => (p, ((l.filter (fun r => r.product = p)).map Row.revenue).sum))

/-- `.nlargest(5)` on a keyed series: stable sort by value descending,
keep the first five. -/
def nlargest5 (l : List (String × ℚ)) : List (String × ℚ) :=
  (sortLe (fun a b => decide (b.2 ≤ a.2)) l).take 5

/-- `top_5_products` of line 140. -/
def top_5_products (l : List Row) : List (String × ℚ) :=
  nlargest5 (groupby_product_sum l)

/-- The metric values of lines 104-111 and the top-5 chart data: what
the presenter renders from a non-empty filtered dataframe. -/
structure View where
  total_revenue : Int
  total_profit : Int
  total_units_sold : Int
  top5 : List (String × ℚ)
deriving DecidableEq, Repr

/-- The computations of lines 104-106 and 140 on the filtered rows. -/
def mkView (fr : List Row) : View :=
  { total_revenue := py_int ((fr.map Row.revenue).sum)
    total_profit := py_int ((fr.map Row.profit).sum)
    total_units_sold := (fr.map Row.units_sold).sum
    top5 := top_5_products fr }

/-- How a dashboard run ends: load failure message, empty-selection
warning, rendered view, or an uncaught exception. -/
inductive MainResult where
  | loadFailed
  | noData
  | rendered (v : View)
  | crashed (e : RowError)
deriving DecidableEq, Repr

/-- Lines 97-111: filter, then either the "No data available" warning
(line 100) or the rendered metrics and charts. -/
def present (rows : List Row) (selRegions selCats : List String) : MainResult :=
  let fr := filterRows rows selRegions selCats
  if fr.isEmpty then .noData else .rendered (mkView fr)

/-- `main` (lines 74-149) with the UI selections as parameters:
load, stop on load failure, then present. -/
def run_dashboard (parseDate : String → Option Nat) (src : FileSource)
    (selRegions selCats : List String) : MainResult :=
  match load_data parseDate src with
  | .missingFile => .loadFailed
  | .raised e => .crashed e
  | .loaded rows => present rows selRegions selCats

/-! ### Concrete sample inputs (used to witness the theorems) -/

/-- A date parser accepting every string (the date value is irrelevant
to the witnessed facts). -/
def pd0 : String → Option Nat := fun _ => some 0

/-- A date parser rejecting every string, standing for an input whose
`Date` column `pd.to_datetime` cannot parse. -/
def pdNone : String → Option Nat := fun _ => none

/-- A sample raw row: an accessories product shipped to Boston. -/
def rawBoston : RawRow :=
  { order_date := "2019-04-19 08:46"
    product := "USB-C Charging Cable"
    units_sold := 2
    unit_price := 12
    revenue := 24
    purchase_address := "917 1st St, Boston, MA 02215" }

/-- The cleaned row derived from `rawBoston`. -/
def rowBoston : Row := mkRow rawBoston 0 "Boston"

/-- A raw row for product "A" with revenue 10, shipped to Austin. -/
def rawTieA : RawRow :=
  { order_date := "d"
    product := "A"
    units_sold := 1
    unit_price := 10
    revenue := 10
    purchase_address := "44 Pine St, Austin, TX 73301" }

/-- A raw row for product "B" with the same revenue 10. -/
def rawTieB : RawRow := { rawTieA with product := "B" }

/-- The cleaned row derived from `rawTieA`. -/
def rowTieA : Row := mkRow rawTieA 0 "Austin"

/-- The cleaned row derived from `rawTieB`. -/
def rowTieB : Row := mkRow rawTieB 0 "Austin"

/-- A raw row whose address has no comma at all. -/
def rawNoComma : RawRow :=
  { order_date := "d"
    product := "P"
    units_sold := 1
    unit_price := 1
    revenue := 1
    purchase_address := "44 Pine St Austin TX 73301" }

/-! ### Helper lemmas about the embedded library functions -/

/-- Unfolding of `strContains` into an existential over start positions. -/
theorem strContains_eq_true_iff {s pat : String} :
    strContains s pat = true ↔
      ∃ i, i < s.data.length + 1 ∧ pat.data.isPrefixOf (s.data.drop i) = true := by
  simp [strContains, List.any_eq_true, List.mem_range]

/-- A character that occurs in a string is found by `strContains` with
the singleton pattern. -/
theorem strContains_single_of_mem {s : String} {c : Char} (h : c ∈ s.data) :
    strContains s (String.mk [c]) = true := by
  obtain ⟨l₁, l₂, hsplit⟩ := List.append_of_mem h
  rw [strContains_eq_true_iff]
  refine ⟨l₁.length, ?_, ?_⟩
  · rw [hsplit]
    simp [List.length_append]
    omega
  · rw [hsplit, List.drop_left]
    simp [List.isPrefixOf]

/-- Splitting off the head of a successful prefix check. -/
theorem isPrefixOf_cons_elim {a : Char} {l₁ l₂ : List Char}
    (h : (a :: l₁).isPrefixOf l₂ = true) :
    ∃ t, l₂ = a :: t ∧ l₁.isPrefixOf t = true := by
  cases l₂ with
  | nil => simp [List.isPrefixOf] at h
  | cons b bs =>
    simp only [List.isPrefixOf, Bool.and_eq_true, beq_iff_eq] at h
    exact ⟨bs, by rw [h.1], h.2⟩

/-- Any product containing `"iPhone"` also contains `"Phone"` (one
position further right). -/
theorem strContains_phone_of_iphone {s : String}
    (h : strContains s "iPhone" = true) : strContains s "Phone" = true := by
  rw [strContains_eq_true_iff] at h ⊢
  obtain ⟨i, hi, hpre⟩ := h
  have hdat : ("iPhone").data = 'i' :: ("Phone").data := rfl
  rw [hdat] at hpre
  obtain ⟨t, ht, hpre'⟩ := isPrefixOf_cons_elim hpre
  have hlen : s.data.length - i = t.length + 1 := by
    have := List.length_drop i s.data
    rw [ht] at this
    simpa using this.symm
  refine ⟨i + 1, by omega, ?_⟩
  have hdrop : s.data.drop (i + 1) = t := by
    have h1 := List.drop_drop 1 i s.data
    rw [ht] at h1
    simpa using h1.symm
  rw [hdrop]
  exact hpre'

/-- A list without the separator character splits into a single piece. -/
theorem splitOnChar_of_not_mem {c : Char} {l : List Char} (h : c ∉ l) :
    splitOnChar c l = [l] := by
  induction l with
  | nil => rfl
  | cons a as ih =>
    have hne : ¬(a = c) := fun e => h (e ▸ List.mem_cons_self a as)
    have hmem : c ∉ as := fun hc => h (List.mem_cons_of_mem _ hc)
    simp [splitOnChar, hne, ih hmem]

/-- An address without a comma makes the city extraction fail: the
`[1]` index of the split has nothing to return. -/
theorem extractCityName_none_of_no_comma {addr : String}
    (h : strContains addr "," = false) : extractCityName addr = none := by
  have hmem : ',' ∉ addr.data := by
    intro hc
    have hcon := strContains_single_of_mem hc
    have : String.mk [','] = "," := rfl
    rw [this, h] at hcon
    exact Bool.false_ne_true hcon
  rw [extractCityName, splitOnChar_of_not_mem hmem]
  rfl

/-- `dropDupAux` only returns elements of its input list. -/
theorem mem_of_mem_dropDupAux {α : Type} [DecidableEq α] :
    ∀ (l seen : List α) (x : α), x ∈ dropDupAux l seen → x ∈ l := by
  intro l
  induction l with
  | nil => intro seen x h; exact absurd h (List.not_mem_nil x)
  | cons a as ih =>
    intro seen x h
    rw [dropDupAux] at h
    by_cases ha : a ∈ seen
    · rw [if_pos ha] at h
      exact List.mem_cons_of_mem _ (ih seen x h)
    · rw [if_neg ha] at h
      rcases List.mem_cons.mp h with rfl | h
      · exact List.mem_cons_self _ _
      · exact List.mem_cons_of_mem _ (ih (a :: seen) x h)

/-- `dropDupAux` emits nothing from `seen` and nothing twice. -/
theorem dropDupAux_spec {α : Type} [DecidableEq α] (l : List α) :
    ∀ seen, (∀ x ∈ dropDupAux l seen, x ∉ seen) ∧ (dropDupAux l seen).Nodup := by
  induction l with
  | nil =>
    intro seen
    exact ⟨fun x hx => absurd hx (List.not_mem_nil x), List.nodup_nil⟩
  | cons a as ih =>
    intro seen
    by_cases ha : a ∈ seen
    · have h := ih seen
      constructor
      · intro x hx; rw [dropDupAux, if_pos ha] at hx; exact h.1 x hx
      · rw [dropDupAux, if_pos ha]; exact h.2
    · have h := ih (a :: seen)
      constructor
      · intro x hx
        rw [dropDupAux, if_neg ha] at hx
        rcases List.mem_cons.mp hx with rfl | hx
        · exact ha
        · exact fun hxs => h.1 x hx (List.mem_cons_of_mem _ hxs)
      · rw [dropDupAux, if_neg ha]
        refine List.nodup_cons.mpr ⟨?_, h.2⟩
        intro hmem
        exact h.1 a hmem (List.mem_cons_self _ _)

/-- The deduplicated dataframe has no two equal rows. -/
theorem drop_duplicates_nodup {α : Type} [DecidableEq α] (l : List α) :
    (drop_duplicates l).Nodup :=
  (dropDupAux_spec l []).2

/-- Every raw row survives (paired with a date) when the date column
converts successfully. -/
theorem parseDates_ok_mem {pd : String → Option Nat} :
    ∀ {raws : List RawRow} {dated : List (RawRow × Nat)},
      parseDates pd raws = .ok dated → ∀ r ∈ raws, ∃ d, (r, d) ∈ dated := by
  intro raws
  induction raws with
  | nil => intro dated _ r hr; exact absurd hr (List.not_mem_nil r)
  | cons a as ih =>
    intro dated h r hr
    rw [parseDates] at h
    split at h
    · exact absurd h (by simp)
    · rename_i d hpa
      split at h
      · exact absurd h (by simp)
      · rename_i rest hrec
        injection h with h'
        subst h'
        rcases List.mem_cons.mp hr with rfl | hr
        · exact ⟨d, List.mem_cons_self _ _⟩
        · obtain ⟨d', hd'⟩ := ih hrec r hr
          exact ⟨d', List.mem_cons_of_mem _ hd'⟩

/-- When the city column derives successfully, every address had a
second comma token. -/
theorem extractCities_ok_all :
    ∀ {dated : List (RawRow × Nat)} {wc : List (RawRow × Nat × String)},
      extractCities dated = .ok wc →
      ∀ x ∈ dated, ∃ c, extractCityName x.1.purchase_address = some c := by
  intro dated
  induction dated with
  | nil => intro wc _ x hx; exact absurd hx (List.not_mem_nil x)
  | cons a as ih =>
    intro wc h x hx
    rw [extractCities] at h
    split at h
    · exact absurd h (by simp)
    · rename_i c hc
      split at h
      · exact absurd h (by simp)
      · rename_i tl htl
        rcases List.mem_cons.mp hx with rfl | hx
        · exact ⟨c, hc⟩
        · exact ih htl x hx

/-- Every row of a successfully cleaned dataframe is a `mkRow` image. -/
theorem load_clean_ok_mem {pd : String → Option Nat} {raws : List RawRow}
    {rows : List Row} (h : load_clean pd raws = .ok rows) :
    ∀ x ∈ rows, ∃ raw d c, x = mkRow raw d c := by
  rw [load_clean] at h
  split at h
  · exact absurd h (by simp)
  · rename_i dated hdated
    split at h
    · exact absurd h (by simp)
    · rename_i wc hwc
      injection h with h'
      subst h'
      intro x hx
      have hx' := mem_of_mem_dropDupAux _ [] x hx
      obtain ⟨y, hy, hxy⟩ := List.mem_map.mp hx'
      exact ⟨y.1, y.2.1, y.2.2, hxy.symm⟩

/-- A successfully cleaned dataframe has no duplicate rows. -/
theorem load_clean_ok_nodup {pd : String → Option Nat} {raws : List RawRow}
    {rows : List Row} (h : load_clean pd raws = .ok rows) : rows.Nodup := by
  rw [load_clean] at h
  split at h
  · exact absurd h (by simp)
  · split at h
    · exact absurd h (by simp)
    · injection h with h'
      subst h'
      exact drop_duplicates_nodup _

/-- Derived rows book cost at 70% of revenue. -/
theorem mkRow_cost (r : RawRow) (d : Nat) (c : String) :
    (mkRow r d c).cost = 7 / 10 * (mkRow r d c).revenue := by
  simp [mkRow]; ring

/-- Derived rows book profit at 30% of revenue. -/
theorem mkRow_profit (r : RawRow) (d : Nat) (c : String) :
    (mkRow r d c).profit = 3 / 10 * (mkRow r d c).revenue := by
  simp [mkRow]; ring

/-- Summing a 30%-of-revenue profit column gives 30% of the summed
revenue column. -/
theorem sum_profit_eq {l : List Row} (h : ∀ r ∈ l, r.profit = 3 / 10 * r.revenue) :
    (l.map Row.profit).sum = 3 / 10 * (l.map Row.revenue).sum := by
  induction l with
  | nil => simp
  | cons a as ih =>
    simp only [List.map_cons, List.sum_cons]
    rw [h a (List.mem_cons_self _ _),
      ih (fun r hr => h r (List.mem_cons_of_mem _ hr)), mul_add]

/-- Membership through stable insertion. -/
theorem mem_insertLe {α : Type} (le : α → α → Bool) (a x : α) :
    ∀ l, x ∈ insertLe le a l ↔ x = a ∨ x ∈ l := by
  intro l
  induction l with
  | nil => simp [insertLe]
  | cons b bs ih =>
    rw [insertLe]
    by_cases hab : le a b = true
    · rw [if_pos hab]
      exact List.mem_cons
    · simp only [if_neg hab, List.mem_cons, ih]
      tauto

/-- Inserting into a list already sorted by a total transitive boolean
relation keeps it sorted. -/
theorem pairwise_insertLe {α : Type} (le : α → α → Bool)
    (htot : ∀ a b, le a b = false → le b a = true)
    (htr : ∀ a b c, le a b = true → le b c = true → le a c = true)
    (a : α) : ∀ l, l.Pairwise (fun x y => le x y = true) →
      (insertLe le a l).Pairwise (fun x y => le x y = true) := by
  intro l
  induction l with
  | nil => intro _; simp [insertLe]
  | cons b bs ih =>
    intro hp
    rcases List.pairwise_cons.mp hp with ⟨hb, hbs⟩
    rw [insertLe]
    by_cases hab : le a b = true
    · rw [if_pos hab]
      refine List.pairwise_cons.mpr ⟨?_, hp⟩
      intro x hx
      rcases List.mem_cons.mp hx with rfl | hx
      · exact hab
      · exact htr a b x hab (hb x hx)
    · rw [if_neg hab]
      refine List.pairwise_cons.mpr ⟨?_, ih hbs⟩
      intro x hx
      rcases (mem_insertLe le a x bs).mp hx with hax | hx
      · rw [hax]
        refine htot a b ?_
        revert hab; cases le a b <;> simp
      · exact hb x hx

/-- Stable insertion sort by a total transitive boolean relation
produces a sorted list. -/
theorem pairwise_sortLe {α : Type} (le : α → α → Bool)
    (htot : ∀ a b, le a b = false → le b a = true)
    (htr : ∀ a b c, le a b = true → le b c = true → le a c = true) :
    ∀ l, (sortLe le l).Pairwise (fun x y => le x y = true) := by
  intro l
  induction l with
  | nil => simp [sortLe]
  | cons a as ih =>
    rw [sortLe]
    exact pairwise_insertLe le htot htr a _ ih

/-- The top-5 computation sorts the keyed revenue sums into
non-increasing value order. -/
theorem top_5_pairwise_ge (rows : List Row) :
    (top_5_products rows).Pairwise (fun a b => a.2 ≥ b.2) := by
  have htot : ∀ a b : String × ℚ, (fun a b : String × ℚ => decide (b.2 ≤ a.2)) a b = false →
      (fun a b : String × ℚ => decide (b.2 ≤ a.2)) b a = true := by
    intro a b h
    simp only [decide_eq_false_iff_not] at h
    simp only [decide_eq_true_eq]
    exact le_of_not_le h
  have htr : ∀ a b c : String × ℚ, (fun a b : String × ℚ => decide (b.2 ≤ a.2)) a b = true →
      (fun a b : String × ℚ => decide (b.2 ≤ a.2)) b c = true →
      (fun a b : String × ℚ => decide (b.2 ≤ a.2)) a c = true := by
    intro a b c h1 h2
    simp only [decide_eq_true_eq] at h1 h2 ⊢
    exact le_trans h2 h1
  have hs := pairwise_sortLe _ htot htr (groupby_product_sum rows)
  have ht : (top_5_products rows).Pairwise
      (fun x y : String × ℚ => decide (y.2 ≤ x.2) = true) :=
    List.Pairwise.sublist (List.take_sublist 5 _) hs
  refine ht.imp ?_
  intro a b h
  simpa [ge_iff_le] using h

/-! ### Claim theorems -/

/-- Claim C1: for every product string, the derived category follows the
ordered, case-sensitive substring rules — a product containing any of
Laptop, Monitor, PC is Electronics; otherwise one containing any of
iPhone, Phone is Mobile; otherwise one containing any of Cable,
Headphones, Wired, Charger, Machine is Accessories; otherwise Other —
and the result is always one of exactly Electronics, Mobile,
Accessories, Other. -/
theorem claim_C1_category_rules (p : String) :
    (containsAny p ["Laptop", "Monitor", "PC"] = true →
      get_category p = "Electronics") ∧
    (containsAny p ["Laptop", "Monitor", "PC"] = false →
      containsAny p ["iPhone", "Phone"] = true →
      get_category p = "Mobile") ∧
    (containsAny p ["Laptop", "Monitor", "PC"] = false →
      containsAny p ["iPhone", "Phone"] = false →
      containsAny p ["Cable", "Headphones", "Wired", "Charger", "Machine"] = true →
      get_category p = "Accessories") ∧
    (containsAny p ["Laptop", "Monitor", "PC"] = false →
      containsAny p ["iPhone", "Phone"] = false →
      containsAny p ["Cable", "Headphones", "Wired", "Charger", "Machine"] = false →
      get_category p = "Other") ∧
    (get_category p = "Electronics" ∨ get_category p = "Mobile" ∨
      get_category p = "Accessories" ∨ get_category p = "Other") := by
  refine ⟨?_, ?_, ?_, ?_, ?_⟩
  · intro h1
    simp [get_category, h1]
  · intro h1 h2
    simp [get_category, h1, h2]
  · intro h1 h2 h3
    simp [get_category, h1, h2, h3]
  · intro h1 h2 h3
    simp [get_category, h1, h2, h3]
  · rw [get_category]
    split_ifs <;> tauto

/-- Claim C1 witness: the spec's own example, "USB-C Charging Cable",
is classified Accessories. -/
theorem claim_C1_category_rules_witness :
    get_category "USB-C Charging Cable" = "Accessories" :=
  (claim_C1_category_rules "USB-C Charging Cable").2.2.1 (by decide) (by decide) (by decide)

/-- Claim C2: for every city string, the derived region is the exact,
case-sensitive lookup — New York City and Boston to East, San Francisco
and Los Angeles to West, Dallas and Atlanta to South, Seattle and
Portland to North, everything else to Central — and the result is
always one of exactly East, West, South, North, Central. -/
theorem claim_C2_region_rules (city : String) :
    (city ∈ ["New York City", "Boston"] → get_region city = "East") ∧
    (city ∉ ["New York City", "Boston"] →
      city ∈ ["San Francisco", "Los Angeles"] → get_region city = "West") ∧
    (city ∉ ["New York City", "Boston"] →
      city ∉ ["San Francisco", "Los Angeles"] →
      city ∈ ["Dallas", "Atlanta"] → get_region city = "South") ∧
    (city ∉ ["New York City", "Boston"] →
      city ∉ ["San Francisco", "Los Angeles"] →
      city ∉ ["Dallas", "Atlanta"] →
      city ∈ ["Seattle", "Portland"] → get_region city = "North") ∧
    (city ∉ ["New York City", "Boston"] →
      city ∉ ["San Francisco", "Los Angeles"] →
      city ∉ ["Dallas", "Atlanta"] →
      city ∉ ["Seattle", "Portland"] → get_region city = "Central") ∧
    (get_region city = "East" ∨ get_region city = "West" ∨
      get_region city = "South" ∨ get_region city = "North" ∨
      get_region city = "Central") := by
  refine ⟨?_, ?_, ?_, ?_, ?_, ?_⟩
  · intro h1
    simp [get_region, h1]
  · intro h1 h2
    simp [get_region, h1, h2]
  · intro h1 h2 h3
    simp [get_region, h1, h2, h3]
  · intro h1 h2 h3 h4
    simp [get_region, h1, h2, h3, h4]
  · intro h1 h2 h3 h4
    simp [get_region, h1, h2, h3, h4]
  · rw [get_region]
    split_ifs <;> tauto

/-- Claim C2 witness: the spec's own example, Austin, falls back to
Central. -/
theorem claim_C2_region_rules_witness : get_region "Austin" = "Central" :=
  (claim_C2_region_rules "Austin").2.2.2.2.1 (by decide) (by decide) (by decide) (by decide)

/-- Claim C3: the filtered collection holds exactly the rows whose
region and category are both selected; an empty region selection gives
an empty filtered collection; and an empty filtered collection makes
the presenter stop with the no-data warning instead of rendering —
never with a crash. -/
theorem claim_C3_filter (rows : List Row) (selRegions selCats : List String) :
    (∀ r, r ∈ filterRows rows selRegions selCats ↔
      r ∈ rows ∧ r.region ∈ selRegions ∧ r.category ∈ selCats) ∧
    filterRows rows [] selCats = [] ∧
    (filterRows rows selRegions selCats = [] →
      present rows selRegions selCats = .noData) ∧
    (∀ e, present rows selRegions selCats ≠ .crashed e) := by
  refine ⟨?_, ?_, ?_, ?_⟩
  · intro r
    simp [filterRows, List.mem_filter, and_assoc]
  · simp [filterRows]
  · intro h
    simp [present, h]
  · intro e
    by_cases hfr : (filterRows rows selRegions selCats).isEmpty
    · simp [present, hfr]
    · simp [present, hfr]

/-- Claim C3 witness: an empty region selection over the Boston sample
row filters to nothing and the presenter reports no data. -/
theorem claim_C3_filter_witness :
    filterRows [rowBoston] [] ["Accessories"] = [] ∧
      present [rowBoston] [] ["Accessories"] = .noData :=
  ⟨(claim_C3_filter [rowBoston] [] ["Accessories"]).2.1,
    (claim_C3_filter [rowBoston] [] ["Accessories"]).2.2.1 (by decide)⟩

/-- Claim C4: over any successfully cleaned dataframe and any filter
selection, the displayed Total Revenue is the integer-truncated sum of
the filtered Revenue column, Total Units Sold is the (integer) sum of
Units_Sold, every filtered row books cost at exactly 70% of its
revenue, the summed Profit column is exactly 30% of the summed Revenue
column, and the displayed Total Profit is the integer truncation of
that 30% share. -/
theorem claim_C4_metrics (parseDate : String → Option Nat) (raws : List RawRow)
    (rows : List Row) (selRegions selCats : List String)
    (h : load_clean parseDate raws = .ok rows) :
    (mkView (filterRows rows selRegions selCats)).total_revenue =
      py_int (((filterRows rows selRegions selCats).map Row.revenue).sum) ∧
    (mkView (filterRows rows selRegions selCats)).total_units_sold =
      ((filterRows rows selRegions selCats).map Row.units_sold).sum ∧
    (∀ r ∈ filterRows rows selRegions selCats, r.cost = 7 / 10 * r.revenue) ∧
    ((filterRows rows selRegions selCats).map Row.profit).sum =
      3 / 10 * ((filterRows rows selRegions selCats).map Row.revenue).sum ∧
    (mkView (filterRows rows selRegions selCats)).total_profit =
      py_int (3 / 10 * ((filterRows rows selRegions selCats).map Row.revenue).sum) := by
  have hmem : ∀ r ∈ filterRows rows selRegions selCats, ∃ raw d c, r = mkRow raw d c :=
    fun r hr => load_clean_ok_mem h r (List.mem_of_mem_filter hr)
  have hprof : ∀ r ∈ filterRows rows selRegions selCats,
      r.profit = 3 / 10 * r.revenue := by
    intro r hr
    obtain ⟨raw, d, c, rfl⟩ := hmem r hr
    exact mkRow_profit raw d c
  have hcost : ∀ r ∈ filterRows rows selRegions selCats,
      r.cost = 7 / 10 * r.revenue := by
    intro r hr
    obtain ⟨raw, d, c, rfl⟩ := hmem r hr
    exact mkRow_cost raw d c
  have hsum := sum_profit_eq hprof
  refine ⟨rfl, rfl, hcost, hsum, ?_⟩
  show py_int (((filterRows rows selRegions selCats).map Row.profit).sum) = _
  rw [hsum]

/-- Claim C4 witness: the Boston sample row filtered by its own region
and category. -/
theorem claim_C4_metrics_witness :
    (mkView (filterRows [rowBoston] ["East"] ["Accessories"])).total_profit =
      py_int (3 / 10 *
        ((filterRows [rowBoston] ["East"] ["Accessories"]).map Row.revenue).sum) :=
  (claim_C4_metrics pd0 [rawBoston] [rowBoston] ["East"] ["Accessories"] rfl).2.2.2.2

/-- Claim C5: when the source file is missing, the loader returns the
failure signal (it does not return partial or empty data) and the
dashboard run halts with the load-failure message, whatever the rest of
the input or the filter selections — so before any filtering, metric or
chart computation. -/
theorem claim_C5_missing_file (parseDate : String → Option Nat)
    (raws : List RawRow) (selRegions selCats : List String) :
    load_data parseDate { present := false, rows := raws } = .missingFile ∧
    run_dashboard parseDate { present := false, rows := raws } selRegions selCats =
      .loadFailed :=
  ⟨rfl, rfl⟩

/-- Cleaning the two tie rows keeps both: they differ in `Product`. -/
theorem load_clean_tie : load_clean pd0 [rawTieA, rawTieB] = .ok [rowTieA, rowTieB] := by
  have hne : mkRow rawTieB 0 "Austin" ∉ [mkRow rawTieA 0 "Austin"] := by
    intro hmem
    have hprod := congrArg Row.product (List.mem_singleton.mp hmem)
    simp [mkRow, rawTieA, rawTieB] at hprod
  show load_clean pd0 [rawTieA, rawTieB] =
    .ok [mkRow rawTieA 0 "Austin", mkRow rawTieB 0 "Austin"]
  have h0 : load_clean pd0 [rawTieA, rawTieB] =
      .ok (drop_duplicates [mkRow rawTieA 0 "Austin", mkRow rawTieB 0 "Austin"]) := rfl
  rw [h0, drop_duplicates, dropDupAux, if_neg (List.not_mem_nil _), dropDupAux, if_neg hne,
    dropDupAux]

/-- The summed-revenue series over the tie rows is a 10-10 tie
(products sorted ascending, each with one revenue-10 row). -/
theorem groupby_tie : groupby_product_sum [rowTieA, rowTieB] =
    [("A", (10 : ℚ) + 0), ("B", (10 : ℚ) + 0)] := rfl

/-- The top-5 output over the tie rows keeps both tied products. -/
theorem top5_tie : top_5_products [rowTieA, rowTieB] = [("A", 10), ("B", 10)] := by
  rw [top_5_products, groupby_tie]
  norm_num [nlargest5, sortLe, insertLe]

/-- Claim C6 counterexample: products "A" and "B" both sum to revenue
10, the top-5 output keeps both, and a list with two equal summed
revenues is not sorted strictly descending. -/
theorem claim_C6_counterexample :
    load_clean pd0 [rawTieA, rawTieB] = .ok [rowTieA, rowTieB] ∧
    filterRows [rowTieA, rowTieB] ["Central"] ["Other"] = [rowTieA, rowTieB] ∧
    top_5_products [rowTieA, rowTieB] = [("A", 10), ("B", 10)] ∧
    ¬ (top_5_products [rowTieA, rowTieB]).Pairwise (fun a b => a.2 > b.2) := by
  refine ⟨load_clean_tie, rfl, top5_tie, ?_⟩
  intro hp
  rw [top5_tie] at hp
  have h10 : (10 : ℚ) > 10 :=
    (List.pairwise_cons.mp hp).1 ("B", 10) (List.mem_cons_self _ _)
  exact absurd h10 (lt_irrefl _)

/-- Claim C6 (amended): the top-5 products output (summed revenue per
product, five largest kept) never has more than five entries and its
summed revenues are in non-increasing order — descending, but with ties
possible, so not strictly descending. -/
theorem claim_C6_top5 (rows : List Row) :
    (top_5_products rows).length ≤ 5 ∧
    (top_5_products rows).Pairwise (fun a b => a.2 ≥ b.2) := by
  constructor
  · rw [top_5_products, nlargest5, List.length_take]
    exact min_le_left _ _
  · exact top_5_pairwise_ge rows

/-- Claim C7: a successfully cleaned dataframe never holds two rows
equal in every column, and a two-row input whose rows are identical in
every column cleans (as the last derivation step) to exactly one row. -/
theorem claim_C7_dedup :
    (∀ (parseDate : String → Option Nat) (raws : List RawRow) (rows : List Row),
      load_clean parseDate raws = .ok rows → rows.Nodup) ∧
    (∀ (parseDate : String → Option Nat) (r : RawRow) (d : Nat) (c : String),
      parseDate r.order_date = some d →
      extractCityName r.purchase_address = some c →
      load_clean parseDate [r, r] = .ok [mkRow r d c]) := by
  constructor
  · intro pd raws rows h
    exact load_clean_ok_nodup h
  · intro pd r d c hd hc
    have h1 : parseDates pd [r, r] = .ok [(r, d), (r, d)] := by
      rw [parseDates, hd, parseDates, hd, parseDates]
    have h2 : extractCities [(r, d), (r, d)] = .ok [(r, d, c), (r, d, c)] := by
      rw [extractCities, hc, extractCities, hc, extractCities]
    simp only [load_clean, h1, h2, List.map_cons, List.map_nil]
    rw [drop_duplicates, dropDupAux, if_neg (List.not_mem_nil _), dropDupAux,
      if_pos (List.mem_singleton.mpr rfl), dropDupAux]

/-- Claim C7 witness: the Boston sample row duplicated cleans to one
row. -/
theorem claim_C7_dedup_witness :
    load_clean pd0 [rawBoston, rawBoston] = .ok [mkRow rawBoston 0 "Boston"] :=
  claim_C7_dedup.2 pd0 rawBoston 0 "Boston" rfl (by decide)

/-- Claim C8: an address with no comma has no second comma-separated
token, so the city derivation step fails: a load whose input contains
such a row never produces a cleaned collection (the row is not
skipped). -/
theorem claim_C8_no_comma (addr : String) :
    (strContains addr "," = false → extractCityName addr = none) ∧
    (∀ (parseDate : String → Option Nat) (raws : List RawRow) (r : RawRow)
      (rows : List Row), r ∈ raws → strContains r.purchase_address "," = false →
      load_clean parseDate raws ≠ .ok rows) := by
  constructor
  · exact extractCityName_none_of_no_comma
  · intro pd raws r rows hmem hnc heq
    rw [load_clean] at heq
    split at heq
    · exact absurd heq (by simp)
    · rename_i dated hdated
      split at heq
      · exact absurd heq (by simp)
      · rename_i wc hwc
        obtain ⟨d, hd⟩ := parseDates_ok_mem hdated r hmem
        obtain ⟨c, hc⟩ := extractCities_ok_all hwc (r, d) hd
        rw [extractCityName_none_of_no_comma hnc] at hc
        exact Option.noConfusion hc

/-- Claim C8 witness: a one-row input whose address has no comma never
cleans successfully. -/
theorem claim_C8_no_comma_witness :
    strContains "44 Pine St Austin TX 73301" "," = false ∧
      load_clean pd0 [rawNoComma] ≠ .ok [] :=
  ⟨by decide,
    (claim_C8_no_comma "44 Pine St Austin TX 73301").2 pd0 [rawNoComma] rawNoComma []
      (List.mem_cons_self _ _) (by decide)⟩

/-- Claim C9: the loader returns the `None` failure signal exactly when
the file is missing; an error raised by the cleaning itself (for
example an unparseable date) leaves the loader as an uncaught
exception, never as the descriptive failure signal. -/
theorem claim_C9_only_missing_file (parseDate : String → Option Nat)
    (src : FileSource) :
    (load_data parseDate src = .missingFile ↔ src.present = false) ∧
    (∀ e, src.present = true → load_clean parseDate src.rows = .error e →
      load_data parseDate src = .raised e) := by
  constructor
  · constructor
    · intro h
      by_contra hp
      rw [load_data, if_neg hp] at h
      revert h
      split <;> simp
    · intro h
      rw [load_data, if_pos h]
  · intro e hp he
    rw [load_data, he]
    simp [hp]

/-- Claim C9 witness: an unparseable date raises, a missing file
signals. -/
theorem claim_C9_only_missing_file_witness :
    load_data pdNone { present := true, rows := [rawBoston] } =
      .raised (.dateParse "2019-04-19 08:46") ∧
    load_data pd0 { present := false, rows := [] } = .missingFile :=
  ⟨(claim_C9_only_missing_file pdNone { present := true, rows := [rawBoston] }).2
      (.dateParse "2019-04-19 08:46") rfl rfl,
    (claim_C9_only_missing_file pd0 { present := false, rows := [] }).1.mpr rfl⟩

/-- Claim C10 counterexample: the product "Phone Headphones" contains
"Headphones" and none of Laptop, Monitor, PC, yet it is classified
Mobile — not Accessories — because "Phone" also occurs elsewhere in
the product text. -/
theorem claim_C10_counterexample :
    strContains "Phone Headphones" "Headphones" = true ∧
    containsAny "Phone Headphones" ["Laptop", "Monitor", "PC"] = false ∧
    get_category "Phone Headphones" = "Mobile" ∧
    "Mobile" ≠ "Accessories" :=
  ⟨by decide, by decide, by decide, by decide⟩

/-- Claim C10 (amended): a product containing "Headphones", none of
Laptop, Monitor, PC, and no occurrence of "Phone" elsewhere in its text
is classified Accessories and never Mobile; in particular, matching
being case-sensitive, the Mobile keyword "Phone" (capital P) is not a
substring of "Headphones" itself. -/
theorem claim_C10_headphones (p : String)
    (hh : strContains p "Headphones" = true)
    (he : containsAny p ["Laptop", "Monitor", "PC"] = false)
    (hp : strContains p "Phone" = false) :
    (get_category p = "Accessories" ∧ get_category p ≠ "Mobile") ∧
    strContains "Headphones" "Phone" = false := by
  refine ⟨?_, by decide⟩
  have hi : strContains p "iPhone" = false := by
    cases hiq : strContains p "iPhone"
    · rfl
    · have hcon := strContains_phone_of_iphone hiq
      rw [hp] at hcon
      exact Bool.noConfusion hcon
  have hm : containsAny p ["iPhone", "Phone"] = false := by
    simp [containsAny, hi, hp]
  have ha : containsAny p ["Cable", "Headphones", "Wired", "Charger", "Machine"] = true := by
    simp [containsAny, hh]
  constructor
  · simp [get_category, he, hm, ha]
  · simp [get_category, he, hm, ha]

/-- Claim C10 witness: a realistic headphones product is classified
Accessories, not Mobile. -/
theorem claim_C10_headphones_witness :
    get_category "Bose SoundSport Headphones" = "Accessories" ∧
      get_category "Bose SoundSport Headphones" ≠ "Mobile" :=
  (claim_C10_headphones "Bose SoundSport Headphones" (by decide) (by decide) (by decide)).1

end Dashboard
